import Mathlib

/-!
Shallow embedding of the Runaway Monitor anomaly-detection and
circuit-breaker logic (`Runaway_Monitor/monitor.py`) and of the API usage
detector's gather loop (`Runaway_Monitor/detectors/api_detector.py`).

Python floats are modelled as rationals (`ℚ`); Python dicts with a fixed
key set become structures with `Option` fields (an absent key is `none`,
`dict.get(k, d)` is `Option.getD`); the ordered `dict` of services and of
per-service thresholds becomes an association list (Python dicts preserve
insertion order).  Formatted log/alert message strings and timestamps are
not modelled: no claim depends on their text.
-/

/-- Severity string of an anomaly dict: the code only ever writes the
strings high and medium (monitor.py lines 178, 205). -/
inductive Severity where
  | medium
  | high
deriving DecidableEq

/-- The type field of an anomaly dict: cost_threshold (monitor.py 176)
or usage_spike (monitor.py 203). -/
inductive AnomalyKind where
  | cost_threshold
  | usage_spike
deriving DecidableEq

/-- An anomaly dict as built by `_check_cost_thresholds` (monitor.py
174-182) or `_check_usage_spikes` (monitor.py 201-210).  Keys absent from
the built dict are `none`; the formatted message string and the timestamp
added at history-insertion time (monitor.py 227) are not modelled. -/
structure Anomaly where
  type : AnomalyKind
  service : String
  severity : Severity
  current_cost : Option ℚ
  threshold : Option ℚ
  current_requests : Option ℚ
  baseline_requests : Option ℚ
  multiplier : Option ℚ
deriving DecidableEq

/-- A usage-data dict as returned by the service detectors
(api_detector.py 146-154 and analogues) or the error dict
`{error: str(e)}` returned by `_get_service_usage` (api_detector.py 98).
Only the keys read by the anomaly checks, plus the error marker, are
modelled; an absent key is `none`. -/
structure UsageData where
  requests_per_hour : Option ℚ
  estimated_cost : Option ℚ
  error : Option String
deriving DecidableEq

/-- Per-service entry of the cost_thresholds config dict
(monitor.py 63-68): optional hourly and daily limits. -/
structure ServiceThreshold where
  hourly : Option ℚ
  daily : Option ℚ
deriving DecidableEq

/-- The circuit_breaker config dict (monitor.py 70-73). -/
structure CircuitBreakerConfig where
  enabled : Bool
  threshold_multiplier : ℚ
deriving DecidableEq

/-- The monitor configuration dict (monitor.py 61-75). -/
structure Config where
  monitoring_interval : ℚ
  cost_thresholds : List (String × ServiceThreshold)
  usage_spike_multiplier : ℚ
  circuit_breaker : CircuitBreakerConfig
  alert_cooldown : ℚ
deriving DecidableEq

/-- `_default_config` (monitor.py 59-75). -/
def default_config : Config :=
  { monitoring_interval := 300
  , cost_thresholds :=
      [ ("openai", ⟨some 10, some 100⟩)
      , ("github_actions", ⟨some 5, some 50⟩)
      , ("stripe", ⟨some 50, some 500⟩)
      , ("supabase", ⟨some 5, some 25⟩) ]
  , usage_spike_multiplier := 3
  , circuit_breaker := ⟨true, 5⟩
  , alert_cooldown := 1800 }

/-- `_check_cost_thresholds` (monitor.py 163-184).
The service config is looked up with an empty-dict default; an absent
service or an empty dict is falsy and returns `None` (monitor.py 167).
`hourly_threshold = service_config.get(hourly, inf)`:
when the hourly key is absent the threshold is `float(inf)` and the
comparison `current_cost > inf` is always false, so no anomaly is ever
emitted; that branch is therefore `none` here.  The daily threshold is
read by the code (monitor.py 172) but never used. -/
def check_cost_thresholds (config : Config) (service : String)
    (usage_data : UsageData) : Option Anomaly :=
  match List.lookup service config.cost_thresholds with
  | none => none
  | some service_config =>
    if service_config.hourly = none ∧ service_config.daily = none then
      none
    else
      let current_cost := usage_data.estimated_cost.getD 0
      match service_config.hourly with
      | none => none
      | some hourly_threshold =>
        if hourly_threshold < current_cost then
          some ⟨AnomalyKind.cost_threshold, service,
                (if hourly_threshold * 2 < current_cost then Severity.high
                 else Severity.medium),
                some current_cost, some hourly_threshold, none, none, none⟩
        else none

/-- `_check_usage_spikes` (monitor.py 186-212).  `baseline_usage` is the
monitor's baseline dict service → usage dict.  Returns `None` when the
service has no baseline (monitor.py 188) or the baseline request rate is
0 (monitor.py 195). -/
def check_usage_spikes (config : Config)
    (baseline_usage : List (String × UsageData)) (service : String)
    (usage_data : UsageData) : Option Anomaly :=
  match List.lookup service baseline_usage with
  | none => none
  | some baseline =>
    let current_requests := usage_data.requests_per_hour.getD 0
    let baseline_requests := baseline.requests_per_hour.getD 0
    if baseline_requests = 0 then
      none
    else
      let multiplier := current_requests / baseline_requests
      let spike_threshold := config.usage_spike_multiplier
      if spike_threshold < multiplier then
        some ⟨AnomalyKind.usage_spike, service,
              (if spike_threshold * 2 < multiplier then Severity.high
               else Severity.medium),
              none, none, some current_requests, some baseline_requests,
              some multiplier⟩
      else none

/-- The request rate the spike check reads for a service from the
baseline dict: 0 both when the service is absent from the baseline and
when its requests_per_hour key is absent (monitor.py 188-193; the division
guard at 195 compares this value with 0). -/
def looked_up_baseline_requests (baseline_usage : List (String × UsageData))
    (service : String) : ℚ :=
  match List.lookup service baseline_usage with
  | none => 0
  | some baseline => baseline.requests_per_hour.getD 0

/-- `_detect_anomalies` (monitor.py 142-161): iterate over the usage map
in order; for each service run the cost check then the spike check and
append any emitted anomaly. -/
def detect_anomalies (config : Config)
    (baseline_usage : List (String × UsageData))
    (current_usage : List (String × UsageData)) : List Anomaly :=
  current_usage.foldl
    (fun anomalies su =>
      let anomalies :=
        match check_cost_thresholds config su.1 su.2 with
        | some a => anomalies ++ [a]
        | none => anomalies
      match check_usage_spikes config baseline_usage su.1 su.2 with
      | some a => anomalies ++ [a]
      | none => anomalies)
    []

/-- The Python slice `l[-10:]` generalised: the last `n` elements. -/
def lastN (n : Nat) (l : List α) : List α :=
  l.drop (l.length - n)

/-- The list comprehension of monitor.py 239-242: among the last 10
entries of the history, those whose service key equals the given
service. -/
def recent_for_service (anomalies_detected : List Anomaly)
    (service : String) : List Anomaly :=
  (lastN 10 anomalies_detected).filter (fun a => a.service == service)

/-- `_should_trigger_circuit_breaker` (monitor.py 230-244), reading the
monitor's `anomalies_detected` history as it is when the check runs. -/
def should_trigger_circuit_breaker (config : Config)
    (anomalies_detected : List Anomaly) (anomaly : Anomaly) : Bool :=
  if config.circuit_breaker.enabled = false then
    false
  else if anomaly.severity = Severity.high then
    true
  else
    let recent_anomalies := recent_for_service anomalies_detected anomaly.service
    decide (3 ≤ recent_anomalies.length)

/-- The mutable monitor state touched by anomaly handling
(monitor.py 38-42): only the `anomalies_detected` history list.  Neither
`_handle_anomalies` nor `_trigger_circuit_breaker` writes any other
field. -/
structure MonitorState where
  anomalies_detected : List Anomaly
deriving DecidableEq

/-- `_trigger_circuit_breaker` (monitor.py 246-259): logs and sends a
critical alert but mutates no monitor state at all — the body ends with
the comment that actual service shutdown is not implemented and it only
logs and alerts. -/
def trigger_circuit_breaker (st : MonitorState) (_anomaly : Anomaly) :
    MonitorState :=
  st

/-- One iteration of the loop body of `_handle_anomalies`
(monitor.py 216-228): notify (external, not modelled), check the breaker
against the history as it stands BEFORE this anomaly is appended
(monitor.py 223), trigger if so (monitor.py 224), then append the anomaly
to the history (monitor.py 228).  Returns the new state and whether the
breaker fired for this anomaly. -/
def handle_anomaly (config : Config) (st : MonitorState) (anomaly : Anomaly) :
    MonitorState × Bool :=
  let trip := should_trigger_circuit_breaker config st.anomalies_detected anomaly
  let st := if trip then trigger_circuit_breaker st anomaly else st
  (⟨st.anomalies_detected ++ [anomaly]⟩, trip)

/-- `_handle_anomalies` (monitor.py 214-228): process the detected
anomalies in order; also collects, per anomaly, whether the circuit
breaker fired on it. -/
def handle_anomalies (config : Config) (st : MonitorState) :
    List Anomaly → MonitorState × List Bool
  | [] => (st, [])
  | anomaly :: rest =>
    let r := handle_anomaly config st anomaly
    let rr := handle_anomalies config r.1 rest
    (rr.1, r.2 :: rr.2)

/-- Exceptions relevant to monitor construction.  A missing config file
raises FileNotFoundError inside `_load_config`; its handler
(monitor.py 53) touches `self.logger`, an attribute that does not exist
yet, which raises AttributeError out of the handler. -/
inductive PyError where
  | file_not_found
  | attributeError
deriving DecidableEq

/-- `_load_config` (monitor.py 47-57).  `config_file` is the parsed
content of the file at `config_path`, or `none` when the file is missing.
`logger_ready` records whether `_setup_logging` has already run: the
FileNotFoundError handler evaluates `self.logger.warning(...)`
(monitor.py 53), which raises AttributeError when the logger attribute
has not been assigned yet; only with a logger does the handler return
`_default_config()`. -/
def load_config (logger_ready : Bool) (config_file : Option Config) :
    Except PyError Config :=
  match config_file with
  | some c => Except.ok c
  | none =>
    if logger_ready then Except.ok default_config
    else Except.error PyError.attributeError

/-- The monitor object after `__init__` (monitor.py 28-45). -/
structure Monitor where
  config : Config
  monitoring_active : Bool
  anomalies_detected : List Anomaly
deriving DecidableEq

/-- `__init__` (monitor.py 28-45): components are created, then
`_load_config` runs (monitor.py 36) while `self.logger` is NOT yet
assigned — `_setup_logging` only runs afterwards (monitor.py 45) — then
the state fields are initialised.  An exception escaping `_load_config`
aborts construction. -/
def init_monitor (config_file : Option Config) : Except PyError Monitor :=
  match load_config false config_file with
  | Except.error e => Except.error e
  | Except.ok config => Except.ok ⟨config, false, []⟩

/-- The error dict `{error: str(e)}` built by `_get_service_usage`
(api_detector.py 98): it carries neither usage key. -/
def error_usage (e : String) : UsageData :=
  ⟨none, none, some e⟩

/-- `_get_service_usage` (api_detector.py 92-98): awaits the detector's
fetch; any exception is caught, logged, and turned into the error dict —
no exception propagates to the gather. -/
def get_service_usage (fetch : String → Except String UsageData)
    (service : String) : UsageData :=
  match fetch service with
  | Except.ok usage => usage
  | Except.error e => error_usage e

/-- `get_all_usage` (api_detector.py 61-90): build one task per CONFIGURED
detector, in services-dict order (line 71-74), gather them, then key
result `i` by `list(self.services.keys())[i]` — the i-th key of the FULL
services dict (line 81), not of the configured subset.  Results are never
`Exception` instances because `_get_service_usage` catches everything, so
every gathered result is entered into the map.  The returned dict is
modelled as the association list of (assigned key, result) pairs in
insertion order; the assigned keys are a prefix of the distinct service
names, so the dict holds exactly these pairs. -/
def get_all_usage (services : List String) (configured : String → Bool)
    (fetch : String → Except String UsageData) :
    List (String × UsageData) :=
  let tasks := (services.filter configured).map (get_service_usage fetch)
  services.zip tasks

/-- The keys of the services dict of `APIUsageDetector.__init__`
(api_detector.py 29-35), in insertion order. -/
def service_names : List String :=
  ["openai", "github", "stripe", "supabase", "cloudflare"]

/-- `get_required_credentials` of each detector class
(api_detector.py 129-130, 166-167, 202-203, 235-236, 270-271); only the
five listed services exist. -/
def required_credentials (service : String) : List String :=
  if service = "openai" then ["OPENAI_API_KEY"]
  else if service = "github" then ["GITHUB_TOKEN"]
  else if service = "stripe" then ["STRIPE_API_KEY"]
  else if service = "supabase" then ["SUPABASE_URL", "SUPABASE_ANON_KEY"]
  else if service = "cloudflare" then
    ["CLOUDFLARE_API_TOKEN", "CLOUDFLARE_ACCOUNT_ID"]
  else []

/-- `is_configured` (api_detector.py 112-115): all required credential
keys are present in the credentials dict (modelled by its key list). -/
def is_configured (credentials : List String) (service : String) : Bool :=
  (required_credentials service).all (fun c => credentials.contains c)

/-- The detection pass of `_monitoring_cycle` (monitor.py 120-134):
gather usage, then detect anomalies over the gathered map.  Total: no
exception can escape. -/
def monitoring_cycle_detect (config : Config)
    (baseline_usage : List (String × UsageData)) (services : List String)
    (configured : String → Bool)
    (fetch : String → Except String UsageData) : List Anomaly :=
  detect_anomalies config baseline_usage (get_all_usage services configured fetch)

/-- A synthetic medium-severity cost anomaly for a service, as the cost
check emits for cost 12 against threshold 10. -/
def sample_medium (service : String) : Anomaly :=
  ⟨AnomalyKind.cost_threshold, service, Severity.medium,
   some 12, some 10, none, none, none⟩

/-- A synthetic high-severity cost anomaly for a service, as the cost
check emits for cost 25 against threshold 10. -/
def sample_high (service : String) : Anomaly :=
  ⟨AnomalyKind.cost_threshold, service, Severity.high,
   some 25, some 10, none, none, none⟩

/-- A stub fetch returning an idle usage sample for every service. -/
def stub_fetch : String → Except String UsageData :=
  fun _ => Except.ok ⟨some 0, some 0, none⟩

/-- The full key set of the environment credential dict
(api_detector.py 42-50). -/
def all_credentials : List String :=
  ["OPENAI_API_KEY", "GITHUB_TOKEN", "STRIPE_API_KEY", "SUPABASE_URL",
   "SUPABASE_ANON_KEY", "CLOUDFLARE_API_TOKEN", "CLOUDFLARE_ACCOUNT_ID"]

/-- A concrete fetch in which the stripe fetch raises while openai
returns an over-threshold cost sample and every other service an
in-budget one. -/
def failing_stripe_fetch : String → Except String UsageData :=
  fun s =>
    if s = "stripe" then Except.error "boom"
    else if s = "openai" then Except.ok ⟨some 0, some 25, none⟩
    else Except.ok ⟨some 0, some 1, none⟩

/-! ## Helper lemmas -/

/-- Zipping a list with its own image under a map pairs each element with
its image. -/
theorem zip_self_map {α β : Type} (f : α → β) :
    ∀ (l : List α), l.zip (l.map f) = l.map (fun x => (x, f x))
  | [] => rfl
  | x :: t => by simp [zip_self_map f t]

/-! ## Claims -/

/-- Claim C1, counterexample: with the default configuration (circuit
breaker enabled), handling three Medium anomalies for the same service
starting from an empty history trips the breaker on none of them — in
particular not on the 3rd — even though after inserting the 3rd the last
10 recorded anomalies contain 3 anomalies for that service.  The code
consults the history BEFORE the new anomaly is appended
(monitor.py 223 runs before 228). -/
theorem third_medium_anomaly_does_not_trip :
    (handle_anomalies default_config ⟨[]⟩
        [sample_medium "openai", sample_medium "openai",
         sample_medium "openai"]).2 = [false, false, false]
    ∧ default_config.circuit_breaker.enabled = true
    ∧ 3 ≤ (recent_for_service
        ((handle_anomalies default_config ⟨[]⟩
            [sample_medium "openai", sample_medium "openai"]).1.anomalies_detected
          ++ [sample_medium "openai"]) "openai").length := by
  with_unfolding_all decide

/-- Claim C1, amended: with the circuit breaker enabled, handling an
anomaly trips the breaker exactly when the anomaly's severity is High or
the history BEFORE inserting the new anomaly contains, among the last 10
recorded anomalies, at least 3 anomalies for that same service; hence the
4th Medium anomaly for a service (3 already recorded) trips, not the
3rd. -/
theorem circuit_breaker_trips_iff_high_or_three_recent_before_insert
    (config : Config) (st : MonitorState) (anomaly : Anomaly)
    (henabled : config.circuit_breaker.enabled = true) :
    (handle_anomaly config st anomaly).2 = true ↔
      (anomaly.severity = Severity.high ∨
        3 ≤ (recent_for_service st.anomalies_detected anomaly.service).length) := by
  unfold handle_anomaly should_trigger_circuit_breaker
  rw [henabled]
  by_cases hs : anomaly.severity = Severity.high <;> simp [hs]

/-- Claim C1, witness for the amended theorem: with 3 Medium anomalies
for openai already recorded, the characterization applies and the next
Medium anomaly for openai trips the breaker. -/
theorem circuit_breaker_trip_characterization_witness :
    default_config.circuit_breaker.enabled = true
    ∧ ((handle_anomaly default_config
          ⟨[sample_medium "openai", sample_medium "openai",
            sample_medium "openai"]⟩ (sample_medium "openai")).2 = true ↔
        ((sample_medium "openai").severity = Severity.high ∨
          3 ≤ (recent_for_service
                [sample_medium "openai", sample_medium "openai",
                 sample_medium "openai"] (sample_medium "openai").service).length))
    ∧ (handle_anomaly default_config
        ⟨[sample_medium "openai", sample_medium "openai",
          sample_medium "openai"]⟩ (sample_medium "openai")).2 = true :=
  ⟨rfl,
   circuit_breaker_trips_iff_high_or_three_recent_before_insert default_config
     ⟨[sample_medium "openai", sample_medium "openai", sample_medium "openai"]⟩
     (sample_medium "openai") rfl,
   by with_unfolding_all decide⟩

/-- Claim C2: with the circuit breaker enabled in configuration, handling
a High-severity anomaly trips the breaker regardless of how many
anomalies the history contains (monitor.py 235-236). -/
theorem high_severity_always_trips (config : Config) (st : MonitorState)
    (anomaly : Anomaly) (henabled : config.circuit_breaker.enabled = true)
    (hsev : anomaly.severity = Severity.high) :
    (handle_anomaly config st anomaly).2 = true := by
  simp [handle_anomaly, should_trigger_circuit_breaker, henabled, hsev]

/-- Claim C2, witness: a single High anomaly for openai trips on first
occurrence with an empty history under the default (enabled) config. -/
theorem high_severity_always_trips_witness :
    default_config.circuit_breaker.enabled = true
    ∧ (sample_high "openai").severity = Severity.high
    ∧ (handle_anomaly default_config ⟨[]⟩ (sample_high "openai")).2 = true :=
  ⟨rfl, rfl,
   high_severity_always_trips default_config ⟨[]⟩ (sample_high "openai") rfl rfl⟩

set_option maxRecDepth 4000 in
/-- Claim C5, counterexample: the anomaly history is NOT bounded by 10 —
after 15 insertions starting from an empty history it holds 15 entries;
`_handle_anomalies` appends unconditionally (monitor.py 228) and nothing
ever evicts (only the breaker check reads the last 10). -/
theorem anomaly_history_exceeds_ten :
    (handle_anomalies default_config ⟨[]⟩
        (List.replicate 15 (sample_medium "openai"))).1.anomalies_detected.length
      = 15
    ∧ 10 < 15 := by
  with_unfolding_all decide

/-- Claim C5, amended: every detected anomaly is appended unconditionally
to the history in detection order, whether or not it trips the breaker,
and the history grows without bound — no eviction ever happens; only the
circuit-breaker check restricts its reading to the last 10 entries. -/
theorem anomaly_history_appends_unconditionally (config : Config)
    (st : MonitorState) (anomalies : List Anomaly) :
    (handle_anomalies config st anomalies).1.anomalies_detected =
      st.anomalies_detected ++ anomalies := by
  induction anomalies generalizing st with
  | nil => simp [handle_anomalies]
  | cons a rest ih =>
    simp [handle_anomalies, handle_anomaly, trigger_circuit_breaker, ih]

/-- Claim C6: when the service is absent from the baseline dict, or its
baseline request rate reads as 0, the usage-spike check returns `None`
regardless of the current request rate — the division is never reached
(monitor.py 188-196). -/
theorem spike_check_silent_without_baseline (config : Config)
    (baseline_usage : List (String × UsageData)) (service : String)
    (usage_data : UsageData)
    (hnobase : looked_up_baseline_requests baseline_usage service = 0) :
    check_usage_spikes config baseline_usage service usage_data = none := by
  unfold looked_up_baseline_requests at hnobase
  unfold check_usage_spikes
  cases hlook : List.lookup service baseline_usage with
  | none => rfl
  | some b =>
    rw [hlook] at hnobase
    have h0 : b.requests_per_hour.getD 0 = 0 := hnobase
    simp [h0]

/-- Claim C6, witness: with an empty baseline dict the spike check is a
silent no-op even for a huge current request rate. -/
theorem spike_check_silent_without_baseline_witness :
    looked_up_baseline_requests [] "github" = 0
    ∧ check_usage_spikes default_config [] "github" ⟨some 999, none, none⟩ = none :=
  ⟨rfl,
   spike_check_silent_without_baseline default_config [] "github"
     ⟨some 999, none, none⟩ rfl⟩

/-- Claim C7, code bug: the trip is not recorded anywhere in the monitor
state.  Handling a High anomaly for openai trips the breaker, but the
resulting state holds nothing beyond the appended anomaly
(`_trigger_circuit_breaker` only logs and alerts, monitor.py 246-259,
despite its alert text saying monitoring is paused for the service), and
the very next Medium anomaly for the same service does NOT trip —
subsequent cycles do not observe the trip and the service is treated as
Closed again. -/
theorem trip_not_recorded_in_monitor_state :
    (handle_anomaly default_config ⟨[]⟩ (sample_high "openai")).2 = true
    ∧ (handle_anomaly default_config ⟨[]⟩ (sample_high "openai")).1
        = ⟨[sample_high "openai"]⟩
    ∧ (handle_anomaly default_config
        (handle_anomaly default_config ⟨[]⟩ (sample_high "openai")).1
        (sample_medium "openai")).2 = false := by
  with_unfolding_all decide

/-- Claim C8, code bug: constructing the monitor with a missing config
file ABORTS with AttributeError instead of falling back to the defaults:
the FileNotFoundError handler logs through `self.logger` (monitor.py 53),
but `_setup_logging` only runs after `_load_config` (monitor.py 36
vs 45), so the logger attribute does not exist yet.  Had the logger been
ready, `_load_config` would indeed return the documented defaults
(interval 300, spike multiplier 3.0, breaker enabled). -/
theorem missing_config_aborts_init :
    init_monitor none = Except.error PyError.attributeError
    ∧ load_config true none = Except.ok default_config
    ∧ default_config.monitoring_interval = 300
    ∧ default_config.usage_spike_multiplier = 3
    ∧ default_config.circuit_breaker.enabled = true :=
  ⟨rfl, rfl, rfl, rfl, rfl⟩

/-- Claim C3: for a service whose config carries an hourly cost limit,
the cost-threshold check emits an anomaly exactly when the sample's
estimated cost strictly exceeds the limit; the anomaly is a CostThreshold
for that service carrying the cost and the limit, with severity High
exactly when the cost strictly exceeds twice the limit and Medium
otherwise. -/
theorem cost_threshold_check_correct (config : Config) (service : String)
    (usage_data : UsageData) (sc : ServiceThreshold) (limit cost : ℚ)
    (hlook : List.lookup service config.cost_thresholds = some sc)
    (hhourly : sc.hourly = some limit)
    (hcost : usage_data.estimated_cost = some cost) :
    check_cost_thresholds config service usage_data =
      if limit < cost then
        some ⟨AnomalyKind.cost_threshold, service,
              (if 2 * limit < cost then Severity.high else Severity.medium),
              some cost, some limit, none, none, none⟩
      else none := by
  unfold check_cost_thresholds
  simp only [hlook, hhourly, hcost, Option.getD_some]
  rw [if_neg (by simp)]
  rw [mul_comm limit 2]

/-- Claim C3, witness: the default openai hourly limit is 10 and a
sample cost of 25 yields a High CostThreshold anomaly for openai. -/
theorem cost_threshold_check_correct_witness :
    List.lookup "openai" default_config.cost_thresholds
      = some ⟨some 10, some 100⟩
    ∧ (⟨some 10, some 100⟩ : ServiceThreshold).hourly = some 10
    ∧ (⟨none, some 25, none⟩ : UsageData).estimated_cost = some 25
    ∧ check_cost_thresholds default_config "openai" ⟨none, some 25, none⟩ =
        (if (10 : ℚ) < 25 then
          some ⟨AnomalyKind.cost_threshold, "openai",
                (if 2 * (10 : ℚ) < 25 then Severity.high else Severity.medium),
                some 25, some 10, none, none, none⟩
        else none)
    ∧ check_cost_thresholds default_config "openai" ⟨none, some 25, none⟩ =
        some ⟨AnomalyKind.cost_threshold, "openai", Severity.high, some 25,
              some 10, none, none, none⟩ :=
  ⟨rfl, rfl, rfl,
   cost_threshold_check_correct default_config "openai" ⟨none, some 25, none⟩
     ⟨some 10, some 100⟩ 10 25 rfl rfl rfl,
   by with_unfolding_all decide⟩

/-- Claim C4: for a service whose baseline exists with a positive request
rate, the usage-spike check computes the multiplier as the sample rate
divided by the baseline rate and emits an anomaly exactly when the
multiplier strictly exceeds the configured spike multiplier; the anomaly
is a UsageSpike for that service carrying both rates and the multiplier,
with severity High exactly when the multiplier strictly exceeds twice the
spike multiplier and Medium otherwise. -/
theorem usage_spike_check_correct (config : Config)
    (baseline_usage : List (String × UsageData)) (service : String)
    (usage_data : UsageData) (b : UsageData) (base current : ℚ)
    (hlook : List.lookup service baseline_usage = some b)
    (hbase : b.requests_per_hour = some base) (hpos : 0 < base)
    (hcur : usage_data.requests_per_hour = some current) :
    check_usage_spikes config baseline_usage service usage_data =
      if config.usage_spike_multiplier < current / base then
        some ⟨AnomalyKind.usage_spike, service,
              (if 2 * config.usage_spike_multiplier < current / base then
                Severity.high
               else Severity.medium),
              none, none, some current, some base, some (current / base)⟩
      else none := by
  unfold check_usage_spikes
  simp only [hlook, hbase, hcur, Option.getD_some]
  rw [if_neg (by simpa using hpos.ne')]
  rw [mul_comm config.usage_spike_multiplier 2]

/-- Claim C4, witness: baseline 10 requests per hour, current 35, spike
multiplier 3.0 gives multiplier 3.5 and a Medium UsageSpike anomaly for
github. -/
theorem usage_spike_check_correct_witness :
    List.lookup "github" [("github", (⟨some 10, none, none⟩ : UsageData))]
      = some ⟨some 10, none, none⟩
    ∧ (⟨some 10, none, none⟩ : UsageData).requests_per_hour = some 10
    ∧ (0 : ℚ) < 10
    ∧ (⟨some 35, none, none⟩ : UsageData).requests_per_hour = some 35
    ∧ check_usage_spikes default_config [("github", ⟨some 10, none, none⟩)]
        "github" ⟨some 35, none, none⟩ =
        (if default_config.usage_spike_multiplier < (35 : ℚ) / 10 then
          some ⟨AnomalyKind.usage_spike, "github",
                (if 2 * default_config.usage_spike_multiplier < (35 : ℚ) / 10 then
                  Severity.high
                 else Severity.medium),
                none, none, some 35, some 10, some ((35 : ℚ) / 10)⟩
        else none)
    ∧ check_usage_spikes default_config [("github", ⟨some 10, none, none⟩)]
        "github" ⟨some 35, none, none⟩ =
        some ⟨AnomalyKind.usage_spike, "github", Severity.medium, none, none,
              some 35, some 10, some ((35 : ℚ) / 10)⟩ :=
  ⟨rfl, rfl, by norm_num,
   rfl,
   usage_spike_check_correct default_config [("github", ⟨some 10, none, none⟩)]
     "github" ⟨some 35, none, none⟩ ⟨some 10, none, none⟩ 10 35 rfl rfl
     (by norm_num) rfl,
   by with_unfolding_all decide⟩

/-- Under the default configuration the cost check emits nothing for an
error dict: every configured hourly limit is positive while the cost
read from an error dict defaults to 0. -/
theorem check_cost_error_none (s e : String) :
    check_cost_thresholds default_config s (error_usage e) = none := by
  by_cases h1 : s = "openai"
  · subst h1
    with_unfolding_all rfl
  by_cases h2 : s = "github_actions"
  · subst h2
    with_unfolding_all rfl
  by_cases h3 : s = "stripe"
  · subst h3
    with_unfolding_all rfl
  by_cases h4 : s = "supabase"
  · subst h4
    with_unfolding_all rfl
  have e1 : (s == "openai") = false := beq_eq_false_iff_ne.mpr h1
  have e2 : (s == "github_actions") = false := beq_eq_false_iff_ne.mpr h2
  have e3 : (s == "stripe") = false := beq_eq_false_iff_ne.mpr h3
  have e4 : (s == "supabase") = false := beq_eq_false_iff_ne.mpr h4
  simp [check_cost_thresholds, default_config, List.lookup, e1, e2, e3, e4]

/-- Under the default configuration the spike check emits nothing for an
error dict against any baseline: the current rate defaults to 0, so the
multiplier is 0, never above the positive spike multiplier. -/
theorem check_spike_error_none (baseline_usage : List (String × UsageData))
    (s e : String) :
    check_usage_spikes default_config baseline_usage s (error_usage e) = none := by
  unfold check_usage_spikes
  cases hlook : List.lookup s baseline_usage with
  | none => rfl
  | some b =>
    simp only [error_usage, Option.getD_none]
    by_cases hz : b.requests_per_hour.getD 0 = 0
    · simp [hz]
    · rw [if_neg hz]
      norm_num [default_config, zero_div]

/-- Claim C9, counterexample: a mid-cycle fetch failure is NOT excluded
from the detection pass.  With all of openai, stripe and supabase
configured and the stripe fetch raising, the gathered usage map still
contains a stripe entry (the error dict) and has all 3 entries; the
detection pass over that very map still emits the anomaly for the
successful openai fetch, and — everything being total — no exception
escapes the cycle. -/
theorem failed_fetch_included_in_detection :
    ("stripe", error_usage "boom") ∈
      get_all_usage ["openai", "stripe", "supabase"]
        (is_configured all_credentials) failing_stripe_fetch
    ∧ (get_all_usage ["openai", "stripe", "supabase"]
        (is_configured all_credentials) failing_stripe_fetch).length = 3
    ∧ monitoring_cycle_detect default_config [] ["openai", "stripe", "supabase"]
        (is_configured all_credentials) failing_stripe_fetch
      = [⟨AnomalyKind.cost_threshold, "openai", Severity.high, some 25, some 10,
          none, none, none⟩] := by
  with_unfolding_all decide

/-- Claim C9, amended: a per-service fetch failure is isolated but not
excluded: the failed service's result becomes an error dict that IS
entered into the usage map (which keeps one entry per service), the
detection pass runs over every entry, and under the default configuration
the error entry itself produces no anomaly (its metrics read as 0); all
of this is total, so no exception escapes the cycle. -/
theorem failed_fetch_yields_error_entry_and_no_anomalies
    (services : List String) (configured : String → Bool)
    (fetch : String → Except String UsageData)
    (baseline_usage : List (String × UsageData)) (s e : String)
    (hall : services.all configured = true)
    (hmem : s ∈ services) (hfail : fetch s = Except.error e) :
    (s, error_usage e) ∈ get_all_usage services configured fetch
    ∧ (get_all_usage services configured fetch).length = services.length
    ∧ check_cost_thresholds default_config s (error_usage e) = none
    ∧ check_usage_spikes default_config baseline_usage s (error_usage e) = none := by
  have hfilter : services.filter configured = services :=
    List.filter_eq_self.mpr (List.all_eq_true.mp hall)
  have hmap : get_all_usage services configured fetch
      = services.map (fun x => (x, get_service_usage fetch x)) := by
    unfold get_all_usage
    rw [hfilter, zip_self_map]
  refine ⟨?_, ?_, check_cost_error_none s e,
    check_spike_error_none baseline_usage s e⟩
  · rw [hmap]
    refine List.mem_map.mpr ⟨s, hmem, ?_⟩
    unfold get_service_usage
    rw [hfail]
  · rw [hmap, List.length_map]

/-- Claim C9, witness for the amended theorem: the concrete failing
stripe scenario instantiates it. -/
theorem failed_fetch_yields_error_entry_witness :
    ["openai", "stripe", "supabase"].all (is_configured all_credentials) = true
    ∧ "stripe" ∈ ["openai", "stripe", "supabase"]
    ∧ failing_stripe_fetch "stripe" = Except.error "boom"
    ∧ (("stripe", error_usage "boom") ∈
        get_all_usage ["openai", "stripe", "supabase"]
          (is_configured all_credentials) failing_stripe_fetch
      ∧ (get_all_usage ["openai", "stripe", "supabase"]
          (is_configured all_credentials) failing_stripe_fetch).length
          = ["openai", "stripe", "supabase"].length
      ∧ check_cost_thresholds default_config "stripe" (error_usage "boom") = none
      ∧ check_usage_spikes default_config [] "stripe" (error_usage "boom")
          = none) :=
  ⟨by decide, by decide, rfl,
   failed_fetch_yields_error_entry_and_no_anomalies
     ["openai", "stripe", "supabase"] (is_configured all_credentials)
     failing_stripe_fetch [] "stripe" "boom" (by decide) (by decide) rfl⟩

/-- In a list where some element failing the predicate precedes one
satisfying it, the filtered list disagrees with the original at some
in-range position: filtering slides a later element into an earlier
slot. -/
theorem filter_position_mismatch {α : Type} (p : α → Bool) :
    ∀ (l : List α) (i j : Nat), i < j →
      ∀ (hi : i < l.length) (hj : j < l.length),
        p l[i] = false → p l[j] = true →
        ∃ k, k < (l.filter p).length ∧ (l.filter p)[k]? ≠ l[k]? := by
  intro l
  induction l with
  | nil =>
    intro i j _ hi
    simp at hi
  | cons x t ih =>
    intro i j hij hi hj hpi hpj
    by_cases hx : p x = true
    · match i, j, hij, hi, hj, hpi, hpj with
      | 0, _, _, hi, hj, hpi, hpj =>
        rw [List.getElem_cons_zero] at hpi
        rw [hpi] at hx
        cases hx
      | i + 1, j + 1, hij, hi, hj, hpi, hpj =>
        rw [List.getElem_cons_succ] at hpi hpj
        obtain ⟨k, hk, hne⟩ :=
          ih i j (by omega) (by simpa using hi) (by simpa using hj) hpi hpj
        refine ⟨k + 1, ?_, ?_⟩
        · rw [List.filter_cons_of_pos hx]
          simpa using hk
        · rw [List.filter_cons_of_pos hx, List.getElem?_cons_succ,
            List.getElem?_cons_succ]
          exact hne
    · have hxf : p x = false := by simpa using hx
      match j, hij, hj, hpj with
      | j + 1, hij, hj, hpj =>
        rw [List.getElem_cons_succ] at hpj
        have hj2 : j < t.length := by simpa using hj
        have hmem : t[j] ∈ t.filter p :=
          List.mem_filter.mpr ⟨List.getElem_mem hj2, hpj⟩
        have hlen : 0 < (t.filter p).length := by
          refine List.length_pos.mpr ?_
          intro hemp
          rw [hemp] at hmem
          simp at hmem
        refine ⟨0, ?_, ?_⟩
        · rw [List.filter_cons_of_neg (by simp [hxf])]
          exact hlen
        · rw [List.filter_cons_of_neg (by simp [hxf]), List.getElem?_cons_zero,
            List.getElem?_eq_getElem hlen]
          intro heq
          have hpy : p ((t.filter p)[0]) = true :=
            (List.mem_filter.mp (List.getElem_mem hlen)).2
          rw [Option.some.injEq] at heq
          rw [heq, hxf] at hpy
          cases hpy

/-- Claim C10: `get_all_usage` keys each gathered result by its position
in the FULL services dict instead of in the configured subset.  Whenever
an unconfigured detector precedes a configured one in dict order, there
is a position at which the name assigned differs from the service whose
usage was actually fetched, so the returned map attributes that usage
data to the wrong service name. -/
theorem get_all_usage_misattributes_usage (services : List String)
    (configured : String → Bool)
    (fetch : String → Except String UsageData) (i j : Nat) (hij : i < j)
    (hi : i < services.length) (hj : j < services.length)
    (hnc : configured services[i] = false)
    (hc : configured services[j] = true) :
    ∃ k, ∃ (hk : k < (services.filter configured).length)
        (hk2 : k < services.length),
      (get_all_usage services configured fetch)[k]? =
        some (services[k],
          get_service_usage fetch (services.filter configured)[k])
      ∧ services[k] ≠ (services.filter configured)[k] := by
  obtain ⟨k, hk, hne⟩ :=
    filter_position_mismatch configured services i j hij hi hj hnc hc
  have hk2 : k < services.length :=
    lt_of_lt_of_le hk (List.length_filter_le configured services)
  refine ⟨k, hk, hk2, ?_, ?_⟩
  · have hzlen : k < (services.zip
        ((services.filter configured).map (get_service_usage fetch))).length := by
      rw [List.length_zip, List.length_map]
      exact lt_min hk2 hk
    unfold get_all_usage
    rw [List.getElem?_eq_getElem hzlen, List.getElem_zip, List.getElem_map]
  · rw [List.getElem?_eq_getElem hk, List.getElem?_eq_getElem hk2] at hne
    intro heq
    exact hne (congrArg some heq).symm

/-- Claim C10, witness: with only GITHUB_TOKEN in the environment, openai
(position 0) is unconfigured while github (position 1) is configured, so
the gathered github usage is keyed under a wrong name (openai). -/
theorem get_all_usage_misattributes_usage_witness :
    ∃ k, ∃ (hk : k < (service_names.filter
          (is_configured ["GITHUB_TOKEN"])).length)
        (hk2 : k < service_names.length),
      (get_all_usage service_names (is_configured ["GITHUB_TOKEN"])
          stub_fetch)[k]? =
        some (service_names[k],
          get_service_usage stub_fetch
            (service_names.filter (is_configured ["GITHUB_TOKEN"]))[k])
      ∧ service_names[k] ≠
          (service_names.filter (is_configured ["GITHUB_TOKEN"]))[k] :=
  get_all_usage_misattributes_usage service_names
    (is_configured ["GITHUB_TOKEN"]) stub_fetch 0 1 (by decide) (by decide)
    (by decide) (by decide) (by decide)
